import Mathlib

/-!
Verification of the Voice Session Controller (givingwu/voice-recognition).

Shallow embedding of the two `VoiceRecorder` variants (HTTP exchange and
WebSocket exchange), the `useErrorHandler` hook, the continuation-window
timers, and the resource cleanup, translated from the TypeScript source.
Binary blobs are modelled by their byte size; stateful React code is
modelled by explicit state records and update functions taken verbatim
from the `setState` calls in the source.
-/

namespace VoiceRec

/-- A binary blob, modelled by its byte size (`Blob.size` in the DOM API). -/
structure Blob where
  size : Nat
deriving DecidableEq, Repr

/-- `new Blob(audioChunks.current, ...)`: the assembled blob's size is the
sum of the chunk sizes. -/
def blobOfChunks (cs : List Blob) : Blob :=
  ⟨(cs.map Blob.size).sum⟩

/-- The `ondataavailable` handler: `if (event.data.size > 0) audioChunks.current.push(event.data)`. -/
def pushChunk (buf : List Blob) (c : Blob) : List Blob :=
  if 0 < c.size then buf ++ [c] else buf

/-- The chunk buffer after a sequence of `ondataavailable` deliveries,
starting from the empty buffer set by `startRecording`. -/
def deliveredBuffer (ds : List Blob) : List Blob :=
  ds.foldl pushChunk []

/-- `ErrorType` from `src/types/error.ts` (the non-null variants). -/
inductive ErrorType where
  | recording
  | processing
  | playback
deriving DecidableEq, Repr

/-- The `RecordingState` react state of `VoiceRecorder` (HTTP variant),
flags plus the continuation-window progress. -/
structure RecFlags where
  isRecording : Bool
  isProcessing : Bool
  isPlaying : Bool
  continuousMode : Bool
  timeoutProgress : Int
deriving DecidableEq, Repr

/-- The initial `useState` value: everything false, progress 0. -/
def initialFlags : RecFlags :=
  ⟨false, false, false, false, 0⟩

/-- `startRecording`: `setState(prev => ({ ...prev, isRecording: true }))`. -/
def startRecordingUpdate (f : RecFlags) : RecFlags :=
  { f with isRecording := true }

/-- `stopRecording`: `setState(prev => ({ ...prev, isRecording: false }))`. -/
def stopRecordingUpdate (f : RecFlags) : RecFlags :=
  { f with isRecording := false }

/-- The recording-ceiling `setTimeout` callback is exactly `stopRecording()`. -/
def recordingTimeoutHandler (f : RecFlags) : RecFlags :=
  stopRecordingUpdate f

/-- `processRecording` entry: `setState(prev => ({ ...prev, isProcessing: true }))`. -/
def processEntryUpdate (f : RecFlags) : RecFlags :=
  { f with isProcessing := true }

/-- `processRecording` catch branch: `setState(prev => ({ ...prev, isProcessing: false }))`. -/
def processErrorUpdate (f : RecFlags) : RecFlags :=
  { f with isProcessing := false }

/-- `processRecording` success: `setState(prev => ({ ...prev, isProcessing: false, isPlaying: true }))`. -/
def processSuccessUpdate (f : RecFlags) : RecFlags :=
  { f with isProcessing := false, isPlaying := true }

/-- The `audioPlayer.current.onended` handler's state update. -/
def onendedUpdate (f : RecFlags) : RecFlags :=
  { f with isPlaying := false, continuousMode := true, timeoutProgress := 100 }

/-- `endContinuousMode`'s state update (it additionally calls `onComplete`). -/
def endContinuousUpdate (f : RecFlags) : RecFlags :=
  { f with continuousMode := false, timeoutProgress := 0 }

/-- The recording ceiling of the HTTP variant: `setTimeout(stopRecording, 5000)`. -/
def recordingCeilingMs : Nat := 5000

/-- Result of the remote `fetch` exchange, seen from `processRecording`. -/
inductive FetchResult where
  | ok (respSize : Nat)
  | httpError (statusText : String)
deriving DecidableEq, Repr

/-- Result of `audioPlayer.current.play()`. -/
inductive PlayResult where
  | ok
  | failed (msg : String)
deriving DecidableEq, Repr

/-- The external environment one `processRecording` call runs against. -/
structure Env where
  fetch : FetchResult
  play : PlayResult
deriving DecidableEq, Repr

/-- How one `processRecording` call ends. -/
inductive Outcome where
  | endedWithError
  | playbackRejected
  | awaitingPlayback
deriving DecidableEq, Repr

/-- Observable result of one `processRecording` call (HTTP variant):
the HTTP posts issued (payload sizes), the error handler invoked (category
and message), whether `play()` was attempted, how the call ended, and the
flag state it leaves behind. -/
structure ProcResult where
  calls : List Nat
  errorRaised : Option (ErrorType × String)
  playAttempted : Bool
  outcome : Outcome
  finalFlags : RecFlags
deriving DecidableEq, Repr

/-- Message of `throw new Error('没有检测到有效的音频数据')`. -/
def emptyUtteranceMsg : String := "没有检测到有效的音频数据"

/-- Message of `throw new Error('服务器返回的音频数据无效')`. -/
def emptyResponseMsg : String := "服务器返回的音频数据无效"

/-- Message of `throw new Error(`请求失败: ...`)`. -/
def requestFailedMsg (statusText : String) : String := "请求失败: " ++ statusText

/-- `processRecording` of the HTTP variant, translated branch for branch:
set `isProcessing`, assemble the blob, throw on size 0 before any fetch,
post otherwise, throw on `!response.ok`, throw on a zero-size response
blob, else flip to `isPlaying` and attempt playback; every thrown error is
caught and routed to `handleProcessingError`, a `play()` rejection to
`handlePlaybackError` (which leaves `isPlaying` set). -/
def processRecording (flags : RecFlags) (chunks : List Blob) (env : Env) : ProcResult :=
  let f1 := processEntryUpdate flags
  let audioBlob := blobOfChunks chunks
  if audioBlob.size = 0 then
    { calls := [], errorRaised := some (.processing, emptyUtteranceMsg),
      playAttempted := false, outcome := .endedWithError,
      finalFlags := processErrorUpdate f1 }
  else
    match env.fetch with
    | .httpError st =>
        { calls := [audioBlob.size],
          errorRaised := some (.processing, requestFailedMsg st),
          playAttempted := false, outcome := .endedWithError,
          finalFlags := processErrorUpdate f1 }
    | .ok respSize =>
        if respSize = 0 then
          { calls := [audioBlob.size],
            errorRaised := some (.processing, emptyResponseMsg),
            playAttempted := false, outcome := .endedWithError,
            finalFlags := processErrorUpdate f1 }
        else
          let f2 := processSuccessUpdate f1
          match env.play with
          | .failed m =>
              { calls := [audioBlob.size], errorRaised := some (.playback, m),
                playAttempted := true, outcome := .playbackRejected,
                finalFlags := f2 }
          | .ok =>
              { calls := [audioBlob.size], errorRaised := none,
                playAttempted := true, outcome := .awaitingPlayback,
                finalFlags := f2 }

/-- Message of `throw new Error('WebSocket 服务未就绪')` (WebSocket variant). -/
def wsNotReadyMsg : String := "WebSocket 服务未就绪"

/-- Observable result of `processRecording` in the WebSocket variant:
the payload sizes handed to `sendAudioStream` and the message passed to
`handleProcessingError`, if any. -/
structure ProcResultWS where
  wsSends : List Nat
  procError : Option String
deriving DecidableEq, Repr

/-- `processRecording` of the WebSocket variant (`VoiceRecorder.tsx`):
assemble the blob, throw on size 0 before any send; if `wsRef.current`
is absent throw; otherwise hand the blob to `sendAudioStream` (which
sends it when the socket is open, else reports through `onError` without
throwing back). -/
def processRecordingWS (chunks : List Blob) (wsPresent wsReady : Bool) : ProcResultWS :=
  let audioBlob := blobOfChunks chunks
  if audioBlob.size = 0 then
    { wsSends := [], procError := some emptyUtteranceMsg }
  else if wsPresent then
    if wsReady then
      { wsSends := [audioBlob.size], procError := none }
    else
      { wsSends := [], procError := none }
  else
    { wsSends := [], procError := some wsNotReadyMsg }

/-- Observable result of the `WebSocketService` `lastMessage` effect. -/
structure WsReceiveResult where
  playAttempted : Bool
  errorReported : Option String
deriving DecidableEq, Repr

/-- The `useEffect` on `lastMessage` in `WebSocketService.tsx`: for any
non-null message it builds a blob from the data and attempts playback,
with no size check; only a `play()` rejection reaches `onError`. -/
def handleServerMessage (msg : Option Blob) (play : PlayResult) : WsReceiveResult :=
  match msg with
  | none => { playAttempted := false, errorReported := none }
  | some _ =>
      match play with
      | .ok => { playAttempted := true, errorReported := none }
      | .failed m => { playAttempted := true, errorReported := some m }

/-- The continuation-window interval period: `const interval = 150`. -/
def contIntervalMs : Nat := 150

/-- The continuation-window hard timeout: `setTimeout(..., 15000)`. -/
def contWindowMs : Nat := 15000

/-- Number of interval ticks until the local `progress` variable reaches 0
(it starts at 100 and each tick subtracts 1: the source comment says
`15秒 = 100步`). -/
def contSteps : Nat := 100

/-- State of one continuation window: the local `progress` variable of
`startContinuousMode`, whether the progress interval and the 15 s timeout
are still armed, the `timeoutProgress` shown through `setState`, the
`continuousMode` flag, and how many times `onComplete` has run (via
`endContinuousMode`). -/
structure ContState where
  progress : Int
  intervalArmed : Bool
  timeoutArmed : Bool
  displayed : Int
  contMode : Bool
  completeCalls : Nat
deriving DecidableEq, Repr

/-- `endContinuousMode`: `setState({continuousMode: false, timeoutProgress: 0})`
followed by `onComplete()`. -/
def endContinuousModeC (s : ContState) : ContState :=
  { s with contMode := false, displayed := 0,
           completeCalls := s.completeCalls + 1 }

/-- The `updateProgress` interval callback: decrement `progress`, publish it
via `setState`, and when it reaches 0 clear the interval and call
`endContinuousMode`; the 15 s timeout is NOT cancelled here. -/
def updateProgress (s : ContState) : ContState :=
  let p := s.progress - 1
  let s1 := { s with progress := p, displayed := p }
  if p ≤ 0 then
    endContinuousModeC { s1 with intervalArmed := false }
  else
    s1

/-- One interval delivery: the callback runs only while the interval is armed. -/
def intervalTick (s : ContState) : ContState :=
  if s.intervalArmed then updateProgress s else s

/-- The continuation-window 15 s `setTimeout` callback: clear the interval
and call `endContinuousMode`. -/
def contTimeoutHandler (s : ContState) : ContState :=
  endContinuousModeC { s with intervalArmed := false, timeoutArmed := false }

/-- Window state right after the `onended` handler ran `setState({...,
continuousMode: true, timeoutProgress: 100})` and `startContinuousMode`
armed both timers with the local `progress = 100`. -/
def contInit : ContState :=
  { progress := 100, intervalArmed := true, timeoutArmed := true,
    displayed := 100, contMode := true, completeCalls := 0 }

/-- The window state after the first `n` interval deliveries. -/
def runTicks : Nat → ContState
  | 0 => contInit
  | n + 1 => intervalTick (runTicks n)

/-- A full continuation window with no new utterance: the interval fires at
150·k ms for k = 1..100, then the 15 s timeout fires (it was armed after
the interval, so at the shared 15000 ms deadline it runs second, and
nothing ever cancelled it). -/
def contWindowRun : ContState :=
  let s := runTicks contSteps
  if s.timeoutArmed then contTimeoutHandler s else s

/-- `autoHideDuration` default of `useErrorHandler`. -/
def autoHideDuration : Nat := 5000

/-- Events driving the error hook: a fault handled at time `now` (which
sets the error and arms `setTimeout(clearError, autoHideDuration)`), and
an armed timer firing at its deadline. -/
inductive ErrEvent where
  | fault (now : Nat) (ty : ErrorType) (msg : String)
  | timerFire (deadline : Nat)
deriving DecidableEq, Repr

/-- Error-hook state: the single `ErrorState` cell and the deadlines of
armed, never-cancelled `setTimeout(clearError, ...)` calls. -/
structure ErrState where
  error : Option (ErrorType × String)
  pending : List Nat
deriving DecidableEq, Repr

/-- `setErrorWithType` then possibly `clearError` from a firing timer:
a fault replaces the single error cell and appends a clear deadline
(`autoHideDuration > 0` holds for the default); a firing armed timer runs
`clearError`, which resets the cell regardless of which fault set it. -/
def errStep (s : ErrState) : ErrEvent → ErrState
  | .fault now ty msg =>
      { error := some (ty, msg), pending := s.pending ++ [now + autoHideDuration] }
  | .timerFire dl =>
      if dl ∈ s.pending then
        { error := none, pending := s.pending.erase dl }
      else
        s

/-- The error-hook state after a time-ordered event sequence, from the
initial `{ type: null, message: null }`. -/
def errRun (evs : List ErrEvent) : ErrState :=
  evs.foldl errStep ⟨none, []⟩

/-- The record of the last fault in an event sequence, if any. -/
def lastFault : List ErrEvent → Option (ErrorType × String)
  | [] => none
  | ErrEvent.fault _ ty msg :: rest => some ((lastFault rest).getD (ty, msg))
  | ErrEvent.timerFire _ :: rest => lastFault rest

/-- Resource handles owned by one `VoiceRecorder` instance: the microphone
stream tracks, the three timers, and the output audio element's activity. -/
structure Resources where
  micTracksActive : Bool
  recordingTimeoutPending : Bool
  continuationTimeoutPending : Bool
  progressIntervalPending : Bool
  audioElementActive : Bool
deriving DecidableEq, Repr

/-- `cleanup`: stop every track of `audioStream.current`, `clearTimeout`
the recording-ceiling and continuation timeouts, `clearInterval` the
progress interval, `clearError`. Nothing touches `audioPlayer.current`.
(The null-guards in the source only skip no-op clears.) -/
def cleanup (r : Resources) : Resources :=
  let r1 := { r with micTracksActive := false }
  let r2 := { r1 with recordingTimeoutPending := false }
  let r3 := { r2 with continuationTimeoutPending := false }
  { r3 with progressIntervalPending := false }

/-- Control points of the linear session pipeline of the HTTP variant,
tracking where the event-driven code is between callbacks. -/
inductive Phase where
  | idle
  | recording
  | stopPending
  | processing
  | playing
  | playFailed
  | continuation
  | ended
deriving DecidableEq, Repr

/-- One session state: control point plus the `RecordingState` flags. -/
def SessState := Phase × RecFlags

/-- The session steps of the HTTP variant. Each constructor is one
callback of the source paired with its exact flag update: the wake-word
activation runs `startRecording`; the recording ceiling or a deactivation
runs `stopRecording`, whose `mediaRecorder.stop()` later delivers
`onstop` and so `processRecording`; `processRecording` either fails (any
thrown error) or flips to playing; `play()` may reject (leaving
`isPlaying` set); `onended` opens the continuation window, whose ticks
only touch `timeoutProgress`, and whose expiry runs `endContinuousMode`.
`deactivate` is `stopRecording` invoked from the `isActive` effect in any
phase (a no-op on the recorder when it is not capturing, but its
`setState` still runs). -/
inductive Step : SessState → SessState → Prop where
  | wake (f : RecFlags) :
      Step (.idle, f) (.recording, startRecordingUpdate f)
  | stop (f : RecFlags) :
      Step (.recording, f) (.stopPending, stopRecordingUpdate f)
  | procEntry (f : RecFlags) :
      Step (.stopPending, f) (.processing, processEntryUpdate f)
  | procError (f : RecFlags) :
      Step (.processing, f) (.ended, processErrorUpdate f)
  | procSuccess (f : RecFlags) :
      Step (.processing, f) (.playing, processSuccessUpdate f)
  | playReject (f : RecFlags) :
      Step (.playing, f) (.playFailed, f)
  | onended (f : RecFlags) :
      Step (.playing, f) (.continuation, onendedUpdate f)
  | tick (p : Int) (f : RecFlags) :
      Step (.continuation, f) (.continuation, { f with timeoutProgress := p })
  | contEnd (f : RecFlags) :
      Step (.continuation, f) (.ended, endContinuousUpdate f)
  | deactivate (pc : Phase) (f : RecFlags) :
      Step (pc, f) (pc, stopRecordingUpdate f)

/-- Session states reachable from the freshly mounted component. -/
def Reachable (s : SessState) : Prop :=
  Relation.ReflTransGen Step (Phase.idle, initialFlags) s

/-- How many of the three activity flags are set. -/
def activeCount (f : RecFlags) : Nat :=
  (if f.isRecording then 1 else 0) +
  (if f.isProcessing then 1 else 0) +
  (if f.isPlaying then 1 else 0)

/-- Phase-indexed flag invariant used to prove mutual exclusion. -/
def flagsOk : Phase → RecFlags → Prop
  | .idle, f => f.isProcessing = false ∧ f.isPlaying = false
  | .recording, f => f.isProcessing = false ∧ f.isPlaying = false
  | .stopPending, f => f.isRecording = false ∧ f.isProcessing = false ∧ f.isPlaying = false
  | .processing, f => f.isRecording = false ∧ f.isPlaying = false
  | .playing, f => f.isRecording = false ∧ f.isProcessing = false
  | .playFailed, f => f.isRecording = false ∧ f.isProcessing = false
  | .continuation, f => f.isRecording = false ∧ f.isProcessing = false ∧ f.isPlaying = false
  | .ended, f => f.isRecording = false ∧ f.isProcessing = false ∧ f.isPlaying = false

/-! ## Helper lemmas -/

lemma foldl_pushChunk (ds : List Blob) :
    ∀ acc, ds.foldl pushChunk acc = acc ++ ds.filter (fun c => 0 < c.size) := by
  induction ds with
  | nil => intro acc; simp
  | cons c rest ih =>
    intro acc
    by_cases h : 0 < c.size
    · simp only [List.foldl_cons, pushChunk, if_pos h, ih, List.filter_cons,
        decide_eq_true h, if_true, List.append_assoc, List.cons_append,
        List.nil_append]
    · simp only [List.foldl_cons, pushChunk, if_neg h, ih, List.filter_cons,
        decide_eq_false h, if_false, Bool.false_eq_true]

lemma sizeSum_filter_zero (ds : List Blob) :
    (blobOfChunks (ds.filter (fun c => 0 < c.size))).size = 0 ↔
      ∀ c ∈ ds, c.size = 0 := by
  induction ds with
  | nil => simp [blobOfChunks]
  | cons c rest ih =>
    by_cases h : 0 < c.size
    · simp only [blobOfChunks, List.filter_cons, decide_eq_true h, if_true,
        List.map_cons, List.sum_cons, List.mem_cons] at ih ⊢
      constructor
      · intro hs
        exact absurd (Nat.eq_zero_of_add_eq_zero_right hs) (Nat.pos_iff_ne_zero.mp h)
      · intro hall
        exact absurd (hall c (Or.inl rfl)) (Nat.pos_iff_ne_zero.mp h)
    · have hc : c.size = 0 := Nat.eq_zero_of_not_pos h
      simp only [blobOfChunks, List.filter_cons, decide_eq_false h, if_false,
        Bool.false_eq_true, List.mem_cons] at ih ⊢
      rw [ih]
      constructor
      · intro hall x hx
        rcases hx with hx | hx
        · rw [hx]; exact hc
        · exact hall x hx
      · intro hall x hx
        exact hall x (Or.inr hx)

lemma errFold_error (evs : List ErrEvent) : ∀ s : ErrState,
    (evs.foldl errStep s).error = none ∨
    (evs.foldl errStep s).error = lastFault evs ∨
    (lastFault evs = none ∧ (evs.foldl errStep s).error = s.error) := by
  induction evs with
  | nil => intro s; right; right; exact ⟨rfl, rfl⟩
  | cons e rest ih =>
    intro s
    cases e with
    | fault now ty msg =>
      simp only [List.foldl_cons, errStep, lastFault]
      rcases ih { error := some (ty, msg),
                  pending := s.pending ++ [now + autoHideDuration] } with h | h | ⟨h1, h2⟩
      · left; exact h
      · cases hl : lastFault rest with
        | none => rw [hl] at h; left; exact h
        | some x =>
          right; left
          rw [hl] at h
          simpa using h
      · right; left
        rw [h1]
        simpa using h2
    | timerFire dl =>
      simp only [List.foldl_cons, errStep, lastFault]
      by_cases hdl : dl ∈ s.pending
      · rw [if_pos hdl]
        rcases ih { error := none, pending := s.pending.erase dl } with h | h | ⟨_, h2⟩
        · left; exact h
        · right; left; exact h
        · left; exact h2
      · rw [if_neg hdl]
        exact ih s

lemma reachable_flagsOk : ∀ s : SessState, Reachable s → flagsOk s.1 s.2 := by
  intro s h
  induction h with
  | refl => exact ⟨rfl, rfl⟩
  | tail _ hstep ih =>
    cases hstep with
    | wake f =>
        exact ⟨ih.1, ih.2⟩
    | stop f =>
        exact ⟨rfl, ih.1, ih.2⟩
    | procEntry f =>
        exact ⟨ih.1, ih.2.2⟩
    | procError f =>
        exact ⟨ih.1, rfl, ih.2⟩
    | procSuccess f =>
        exact ⟨ih.1, rfl⟩
    | playReject f =>
        exact ih
    | onended f =>
        exact ⟨ih.1, ih.2, rfl⟩
    | tick p f =>
        exact ih
    | contEnd f =>
        exact ih
    | deactivate pc f =>
        cases pc <;>
          simp only [flagsOk, stopRecordingUpdate] at ih ⊢ <;>
          tauto

/-! ## Claim theorems -/

/-- C1: whenever the recording phase stops with zero captured bytes (the
assembled blob has size 0), neither variant of `processRecording` contacts
the Exchange Client — the HTTP variant issues no POST and the WebSocket
variant sends no message — and the empty-utterance fault is raised
instead, before any send. -/
theorem emptyUtterance_never_sends
    (flags : RecFlags) (chunks : List Blob) (env : Env)
    (wsPresent wsReady : Bool)
    (h : (blobOfChunks chunks).size = 0) :
    (processRecording flags chunks env).calls = [] ∧
    (processRecording flags chunks env).errorRaised =
      some (ErrorType.processing, emptyUtteranceMsg) ∧
    (processRecordingWS chunks wsPresent wsReady).wsSends = [] ∧
    (processRecordingWS chunks wsPresent wsReady).procError = some emptyUtteranceMsg := by
  unfold processRecording processRecordingWS
  rw [if_pos h, if_pos h]
  exact ⟨rfl, rfl, rfl, rfl⟩

/-- Witness for C1: three zero-size `ondataavailable` deliveries leave an
empty buffer whose processing issues no network call in either variant. -/
theorem emptyUtterance_never_sends_witness :
    (processRecording initialFlags (deliveredBuffer [⟨0⟩, ⟨0⟩, ⟨0⟩]) ⟨.ok 1, .ok⟩).calls = [] ∧
    (processRecording initialFlags (deliveredBuffer [⟨0⟩, ⟨0⟩, ⟨0⟩]) ⟨.ok 1, .ok⟩).errorRaised =
      some (ErrorType.processing, emptyUtteranceMsg) ∧
    (processRecordingWS (deliveredBuffer [⟨0⟩, ⟨0⟩, ⟨0⟩]) true true).wsSends = [] ∧
    (processRecordingWS (deliveredBuffer [⟨0⟩, ⟨0⟩, ⟨0⟩]) true true).procError =
      some emptyUtteranceMsg :=
  emptyUtterance_never_sends initialFlags (deliveredBuffer [⟨0⟩, ⟨0⟩, ⟨0⟩])
    ⟨.ok 1, .ok⟩ true true (by decide)

set_option maxRecDepth 4000 in
/-- C2 (code bug witness): a continuation window that runs to expiry with
no new utterance invokes `endContinuousMode` — and hence the `onComplete`
completion callback — twice, not once: the 100th interval tick drives the
progress to 0 and completes, and the never-cancelled 15 s timeout then
completes again. The window does transition out of continuous mode. -/
theorem continuation_expiry_completes_twice :
    contWindowRun.completeCalls = 2 ∧ contWindowRun.contMode = false := by
  decide

/-- C3 (counterexample): stopping with zero bytes buffered surfaces the
fault through `handleProcessingError`, i.e. with error type `processing`,
not `recording` as claimed. -/
theorem zero_byte_error_not_recording :
    (processRecording initialFlags [] ⟨.ok 1, .ok⟩).errorRaised =
      some (ErrorType.processing, emptyUtteranceMsg) ∧
    ErrorType.processing ≠ ErrorType.recording := by
  exact ⟨rfl, by decide⟩

/-- C3 (amended): whenever recording stops with zero bytes buffered, the
surfaced error has category Processing (error type `processing`), the
Exchange Client is never invoked, and the session goes directly to Ended:
the call ends in the error outcome with the processing flag cleared and no
playback attempted. -/
theorem zero_byte_stop_is_processing_ended
    (flags : RecFlags) (chunks : List Blob) (env : Env)
    (h : (blobOfChunks chunks).size = 0) :
    (processRecording flags chunks env).errorRaised =
      some (ErrorType.processing, emptyUtteranceMsg) ∧
    (processRecording flags chunks env).calls = [] ∧
    (processRecording flags chunks env).outcome = Outcome.endedWithError ∧
    (processRecording flags chunks env).playAttempted = false ∧
    (processRecording flags chunks env).finalFlags.isProcessing = false := by
  unfold processRecording
  rw [if_pos h]
  exact ⟨rfl, rfl, rfl, rfl, rfl⟩

/-- Witness for C3's amended theorem at the empty buffer. -/
theorem zero_byte_stop_is_processing_ended_witness :
    (processRecording initialFlags [] ⟨.httpError "500", .ok⟩).errorRaised =
      some (ErrorType.processing, emptyUtteranceMsg) ∧
    (processRecording initialFlags [] ⟨.httpError "500", .ok⟩).calls = [] ∧
    (processRecording initialFlags [] ⟨.httpError "500", .ok⟩).outcome =
      Outcome.endedWithError ∧
    (processRecording initialFlags [] ⟨.httpError "500", .ok⟩).playAttempted = false ∧
    (processRecording initialFlags [] ⟨.httpError "500", .ok⟩).finalFlags.isProcessing = false :=
  zero_byte_stop_is_processing_ended initialFlags [] ⟨.httpError "500", .ok⟩ (by decide)

/-- C4: in every session state reachable from the freshly mounted
component, at most one of `isRecording`, `isProcessing`, `isPlaying` is
set: every state update the handlers perform preserves the mutual
exclusion along every execution. -/
theorem reachable_mutual_exclusion
    (pc : Phase) (f : RecFlags) (h : Reachable (pc, f)) :
    activeCount f ≤ 1 := by
  have hok := reachable_flagsOk (pc, f) h
  unfold activeCount
  cases pc with
  | idle =>
      obtain ⟨h1, h2⟩ := hok
      rw [h1, h2]
      cases f.isRecording <;> simp
  | recording =>
      obtain ⟨h1, h2⟩ := hok
      rw [h1, h2]
      cases f.isRecording <;> simp
  | stopPending =>
      obtain ⟨h1, h2, h3⟩ := hok
      rw [h1, h2, h3]
      simp
  | processing =>
      obtain ⟨h1, h2⟩ := hok
      rw [h1, h2]
      cases f.isProcessing <;> simp
  | playing =>
      obtain ⟨h1, h2⟩ := hok
      rw [h1, h2]
      cases f.isPlaying <;> simp
  | playFailed =>
      obtain ⟨h1, h2⟩ := hok
      rw [h1, h2]
      cases f.isPlaying <;> simp
  | continuation =>
      obtain ⟨h1, h2, h3⟩ := hok
      rw [h1, h2, h3]
      simp
  | ended =>
      obtain ⟨h1, h2, h3⟩ := hok
      rw [h1, h2, h3]
      simp

/-- Witness for C4: the state reached by the wake-word step satisfies the
bound. -/
theorem reachable_mutual_exclusion_witness :
    activeCount (startRecordingUpdate initialFlags) ≤ 1 :=
  reachable_mutual_exclusion Phase.recording (startRecordingUpdate initialFlags)
    (Relation.ReflTransGen.single (Step.wake initialFlags))

/-- C5 (counterexample): the `WebSocketService` receive path attempts
playback of a zero-byte inbound payload and raises no fault for it, so a
zero-length response payload is not universally treated as a
Processing-category fault before playback. -/
theorem ws_zero_payload_played :
    (handleServerMessage (some ⟨0⟩) PlayResult.ok).playAttempted = true ∧
    (handleServerMessage (some ⟨0⟩) PlayResult.ok).errorReported = none := by
  exact ⟨rfl, rfl⟩

/-- C5 (amended): in the HTTP exchange path (`processRecording`), a
zero-length response payload is treated as a Processing-category fault
(`EmptyResponse`) and playback is attempted only for responses of size
greater than zero; the WebSocket receive handler, by contrast, attempts
playback of any inbound message without a size check. -/
theorem http_zero_response_is_processing_fault
    (flags : RecFlags) (chunks : List Blob) (env : Env) :
    (env.fetch = FetchResult.ok 0 → 0 < (blobOfChunks chunks).size →
      (processRecording flags chunks env).errorRaised =
        some (ErrorType.processing, emptyResponseMsg) ∧
      (processRecording flags chunks env).playAttempted = false ∧
      (processRecording flags chunks env).outcome = Outcome.endedWithError) ∧
    ((processRecording flags chunks env).playAttempted = true →
      ∃ n, 0 < n ∧ env.fetch = FetchResult.ok n) := by
  constructor
  · intro hf hsz
    unfold processRecording
    rw [if_neg (Nat.pos_iff_ne_zero.mp hsz), hf]
    exact ⟨rfl, rfl, rfl⟩
  · intro hplay
    unfold processRecording at hplay
    by_cases h0 : (blobOfChunks chunks).size = 0
    · rw [if_pos h0] at hplay
      simp at hplay
    · rw [if_neg h0] at hplay
      cases hf : env.fetch with
      | httpError st =>
          rw [hf] at hplay
          simp at hplay
      | ok n =>
          rw [hf] at hplay
          by_cases hn : n = 0
          · subst hn
            simp at hplay
          · exact ⟨n, Nat.pos_of_ne_zero hn, rfl⟩

/-- Witness for C5's amended theorem: a 3-byte utterance answered with a
zero-byte response yields the Processing fault and no playback attempt. -/
theorem http_zero_response_is_processing_fault_witness :
    (processRecording initialFlags [⟨3⟩] ⟨.ok 0, .ok⟩).errorRaised =
      some (ErrorType.processing, emptyResponseMsg) ∧
    (processRecording initialFlags [⟨3⟩] ⟨.ok 0, .ok⟩).playAttempted = false ∧
    (processRecording initialFlags [⟨3⟩] ⟨.ok 0, .ok⟩).outcome = Outcome.endedWithError :=
  (http_zero_response_is_processing_fault initialFlags [⟨3⟩] ⟨.ok 0, .ok⟩).1
    rfl (by decide)

/-- C6: a stop triggered by the recording-ceiling timeout produces exactly
the same downstream behaviour as a manual stop: the `setTimeout` callback
is `stopRecording` itself, so for a non-empty buffer the flag update and
the whole `onstop → processRecording` pipeline — exchange, error surface,
playback attempt, final flags — coincide. -/
theorem timeout_stop_matches_manual_stop
    (flags : RecFlags) (chunks : List Blob) (env : Env)
    (_h : 0 < (blobOfChunks chunks).size) :
    recordingTimeoutHandler flags = stopRecordingUpdate flags ∧
    processRecording (recordingTimeoutHandler flags) chunks env =
      processRecording (stopRecordingUpdate flags) chunks env := by
  exact ⟨rfl, rfl⟩

/-- Witness for C6 at a one-chunk buffer of 12 000 bytes. -/
theorem timeout_stop_matches_manual_stop_witness :
    recordingTimeoutHandler initialFlags = stopRecordingUpdate initialFlags ∧
    processRecording (recordingTimeoutHandler initialFlags) [⟨12000⟩] ⟨.ok 9600, .ok⟩ =
      processRecording (stopRecordingUpdate initialFlags) [⟨12000⟩] ⟨.ok 9600, .ok⟩ :=
  timeout_stop_matches_manual_stop initialFlags [⟨12000⟩] ⟨.ok 9600, .ok⟩ (by decide)

/-- C7 (counterexample): `cleanup` does not release the output audio
element: disposing while every handle is live leaves the audio element
active, so not every device handle is released by disposal. -/
theorem cleanup_leaves_audio_element :
    (cleanup ⟨true, true, true, true, true⟩).audioElementActive = true := by
  decide

/-- C7 (amended): from any internal state, `cleanup` releases the
microphone stream tracks and cancels all three pending timers (recording
ceiling, continuation timeout, progress interval), and it is idempotent;
the output audio element, however, is left untouched. -/
theorem cleanup_releases_mic_and_timers
    (r : Resources) :
    (cleanup r).micTracksActive = false ∧
    (cleanup r).recordingTimeoutPending = false ∧
    (cleanup r).continuationTimeoutPending = false ∧
    (cleanup r).progressIntervalPending = false ∧
    cleanup (cleanup r) = cleanup r ∧
    (cleanup r).audioElementActive = r.audioElementActive := by
  exact ⟨rfl, rfl, rfl, rfl, rfl, rfl⟩

/-- Witness for C7's amended theorem at a fully live resource state. -/
theorem cleanup_releases_mic_and_timers_witness :
    (cleanup ⟨true, true, true, true, false⟩).micTracksActive = false ∧
    (cleanup ⟨true, true, true, true, false⟩).recordingTimeoutPending = false ∧
    (cleanup ⟨true, true, true, true, false⟩).continuationTimeoutPending = false ∧
    (cleanup ⟨true, true, true, true, false⟩).progressIntervalPending = false ∧
    cleanup (cleanup ⟨true, true, true, true, false⟩) = cleanup ⟨true, true, true, true, false⟩ ∧
    (cleanup ⟨true, true, true, true, false⟩).audioElementActive = false :=
  cleanup_releases_mic_and_timers ⟨true, true, true, true, false⟩

/-- C8 (counterexample): with the default 5000 ms display duration, a
fault at t = 0 followed by a new fault at t = 3000 is cleared when the
first fault's never-cancelled timer fires at t = 5000 — earlier than the
newer fault's own duration (3000 + 5000 = 8000), whose timer is still
pending. -/
theorem stale_timer_clears_new_error :
    errRun [.fault 0 .recording "a", .fault 3000 .processing "b", .timerFire 5000] =
      ⟨none, [8000]⟩ ∧
    5000 < 3000 + autoHideDuration := by
  exact ⟨by decide, by decide⟩

/-- C8 (amended): at most one ErrorRecord is active at any instant and a
newer fault replaces the older rather than queuing (the active error, when
set, is always the most recent fault's record); each fault arms an
auto-clear timer, but timers from earlier faults are never cancelled and
any armed timer that fires clears whatever error is active — so a newly
set error can be cleared earlier than its own display duration by a timer
armed for a previous fault. -/
theorem error_replace_and_timer_clears :
    (∀ evs : List ErrEvent,
      (errRun evs).error = none ∨ (errRun evs).error = lastFault evs) ∧
    (∀ (s : ErrState) (dl : Nat), dl ∈ s.pending →
      (errStep s (.timerFire dl)).error = none) := by
  constructor
  · intro evs
    rcases errFold_error evs ⟨none, []⟩ with h | h | ⟨_, h2⟩
    · left; exact h
    · right; exact h
    · left; exact h2
  · intro s dl hdl
    simp only [errStep]
    rw [if_pos hdl]

/-- Witness for C8's amended theorem: after a single fault the active
error is that fault's record, and a pending timer firing clears the cell. -/
theorem error_replace_and_timer_clears_witness :
    ((errRun [.fault 0 .recording "a"]).error = none ∨
      (errRun [.fault 0 .recording "a"]).error = lastFault [.fault 0 .recording "a"]) ∧
    (errStep ⟨some (ErrorType.processing, "b"), [5000]⟩ (.timerFire 5000)).error = none :=
  ⟨error_replace_and_timer_clears.1 [.fault 0 .recording "a"],
   error_replace_and_timer_clears.2 ⟨some (ErrorType.processing, "b"), [5000]⟩ 5000
     (by decide)⟩

set_option maxRecDepth 100000 in
/-- C9: the continuation-window progress starts at 100 (both the `onended`
state update and the local countdown), is non-increasing over the
successive countdown steps, the window's fixed total duration is
150 ms × 100 steps = 15 000 ms, at its end the displayed progress is 0,
and the session has left continuous mode with the completion callback
fired. -/
theorem continuation_progress_countdown :
    contInit.displayed = 100 ∧
    (∀ f : RecFlags, (onendedUpdate f).timeoutProgress = 100) ∧
    (∀ n : Nat, n < contSteps →
      (runTicks (n + 1)).displayed ≤ (runTicks n).displayed) ∧
    contIntervalMs * contSteps = contWindowMs ∧
    contWindowMs = 15000 ∧
    (runTicks contSteps).displayed = 0 ∧
    (runTicks contSteps).contMode = false ∧
    1 ≤ (runTicks contSteps).completeCalls := by
  refine ⟨rfl, fun f => rfl, by decide, rfl, rfl, by decide, by decide, by decide⟩

set_option maxRecDepth 4000 in
/-- Witness for C9: the first countdown step does not increase the
displayed progress. -/
theorem continuation_progress_countdown_witness :
    (runTicks 1).displayed ≤ (runTicks 0).displayed :=
  continuation_progress_countdown.2.2.1 0 (by decide)

/-- C10: the `ondataavailable` handler discards zero-byte chunks, so the
buffered chunk list contains only chunks of positive size, and the
assembled utterance has size 0 exactly when no delivered chunk was
non-empty. -/
theorem buffered_chunks_positive (ds : List Blob) :
    (∀ c ∈ deliveredBuffer ds, 0 < c.size) ∧
    ((blobOfChunks (deliveredBuffer ds)).size = 0 ↔ ∀ c ∈ ds, c.size = 0) := by
  have hbuf : deliveredBuffer ds = ds.filter (fun c => 0 < c.size) := by
    unfold deliveredBuffer
    rw [foldl_pushChunk ds []]
    simp
  constructor
  · intro c hc
    rw [hbuf] at hc
    have := List.of_mem_filter hc
    simpa using this
  · rw [hbuf]
    exact sizeSum_filter_zero ds

/-- Witness for C10 at a mixed delivery sequence. -/
theorem buffered_chunks_positive_witness :
    (∀ c ∈ deliveredBuffer [⟨0⟩, ⟨2⟩, ⟨0⟩, ⟨5⟩], 0 < c.size) ∧
    ((blobOfChunks (deliveredBuffer [⟨0⟩, ⟨2⟩, ⟨0⟩, ⟨5⟩])).size = 0 ↔
      ∀ c ∈ [Blob.mk 0, ⟨2⟩, ⟨0⟩, ⟨5⟩], c.size = 0) :=
  buffered_chunks_positive [⟨0⟩, ⟨2⟩, ⟨0⟩, ⟨5⟩]

end VoiceRec
